import Mathlib

/-!
Shallow embedding of the Corsair Commander Core XT driver
(src/corsair-ccxt.c, with src/polyfills.h and the near-duplicate
src/debug-tool.c) and proofs about its protocol engine.

Bytes are modelled as `Nat` values (all byte expressions in the source
stay within 0..255), buffers as `List Nat`, and C `int`/`long` results
as `Int`.  Errno constants carry their Linux values.
-/

namespace Ccxt

/-! ## Constants (from the `#define`s in corsair-ccxt.c) -/

def NUM_FANS : Nat := 6
def NUM_TEMP_SENSORS : Nat := 2
def OUT_BUFFER_SIZE : Nat := 385
def IN_BUFFER_SIZE : Nat := 384
def CMD_HEADER_SIZE : Nat := 2
def WRITE_DATA_HEADER_SIZE : Nat := 4
def FAN_CNT_INDEX : Nat := 5
def FAN_DATA_OFFSET : Nat := 6
def TEMP_CNT_INDEX : Nat := 5
def TEMP_DATA_OFFSET : Nat := 6
def FAN_STATE_OK : Nat := 0x07

/-! Linux errno values used by the driver. -/

def EIO_errno : Int := 5
def EINVAL : Int := 22
def ENODATA : Int := 61
def EPROTO : Int := 71
def EOPNOTSUPP : Int := 95
def ETIMEDOUT : Int := 110

/-! Command templates and endpoint selectors. -/

def cmd_get_firmware : List Nat := [0x02, 0x13]
def cmd_hardware_mode : List Nat := [0x01, 0x03, 0x00, 0x01]
def cmd_software_mode : List Nat := [0x01, 0x03, 0x00, 0x02]
def cmd_open_endpoint : List Nat := [0x0d, 0x01]
def cmd_close_endpoint : List Nat := [0x05, 0x01, 0x01]
def cmd_write : List Nat := [0x06, 0x01]
def cmd_read : List Nat := [0x08, 0x01]

def endpoint_fan_state : Nat := 0x17
def endpoint_fan_pwm : Nat := 0x18
def endpoint_get_fans : Nat := 0x1a
def endpoint_get_temperatures : Nat := 0x21

def data_type_set_speed : List Nat := [0x07, 0x00]

/-! ## Byte-buffer primitives

`writeBytes buf off src` models `memcpy(buf + off, src, len(src))` on a
buffer represented as a list: bytes `off .. off + len(src) - 1` are
overwritten with `src`, the rest is unchanged. -/

def writeBytes : List Nat → Nat → List Nat → List Nat
  | buf, _, [] => buf
  | buf, off, b :: bs => writeBytes (buf.set off b) (off + 1) bs

theorem length_writeBytes (src : List Nat) :
    ∀ (buf : List Nat) (off : Nat), (writeBytes buf off src).length = buf.length := by
  induction src with
  | nil => intro buf off; rfl
  | cons b bs ih =>
      intro buf off
      simp [writeBytes, ih, List.length_set]

theorem getD_set_of_ne (l : List Nat) (i j v : Nat) (h : i ≠ j) :
    (l.set i v).getD j 0 = l.getD j 0 := by
  simp [List.getD_eq_getElem?_getD, List.getElem?_set_ne h]

theorem getD_set_self (l : List Nat) (i v : Nat) (h : i < l.length) :
    (l.set i v).getD i 0 = v := by
  simp [List.getD_eq_getElem?_getD, List.getElem?_set_self, h]

/-- Positions strictly before the copy destination are untouched. -/
theorem getD_writeBytes_lt (src : List Nat) :
    ∀ (buf : List Nat) (off j : Nat), j < off →
      (writeBytes buf off src).getD j 0 = buf.getD j 0 := by
  induction src with
  | nil => intro buf off j _; rfl
  | cons b bs ih =>
      intro buf off j hj
      have := ih (buf.set off b) (off + 1) j (Nat.lt_succ_of_lt hj)
      rw [writeBytes, this, getD_set_of_ne _ _ _ _ (Nat.ne_of_gt hj)]

/-- Positions at or after the end of the copied block are untouched. -/
theorem getD_writeBytes_ge (src : List Nat) :
    ∀ (buf : List Nat) (off j : Nat), off + src.length ≤ j →
      (writeBytes buf off src).getD j 0 = buf.getD j 0 := by
  induction src with
  | nil => intro buf off j _; rfl
  | cons b bs ih =>
      intro buf off j hj
      simp only [List.length_cons] at hj
      have hj' : off + 1 + bs.length ≤ j := by omega
      have hne : off ≠ j := by omega
      rw [writeBytes, ih (buf.set off b) (off + 1) j hj', getD_set_of_ne _ _ _ _ hne]

/-- Inside the copied block the buffer holds the source bytes. -/
theorem getD_writeBytes_in (src : List Nat) :
    ∀ (buf : List Nat) (off i : Nat), i < src.length → off + src.length ≤ buf.length →
      (writeBytes buf off src).getD (off + i) 0 = src.getD i 0 := by
  induction src with
  | nil => intro buf off i hi _; exact absurd hi (Nat.not_lt_zero i)
  | cons b bs ih =>
      intro buf off i hi hle
      simp only [List.length_cons] at hle
      cases i with
      | zero =>
          rw [Nat.add_zero, writeBytes, getD_writeBytes_lt bs _ _ _ (Nat.lt_succ_self off)]
          exact getD_set_self buf off b (by omega)
      | succ k =>
          have hk : k < bs.length := by simpa [Nat.succ_lt_succ_iff] using hi
          have hle' : off + 1 + bs.length ≤ (buf.set off b).length := by
            simp [List.length_set]; omega
          have := ih (buf.set off b) (off + 1) k hk hle'
          rw [writeBytes, show off + (k + 1) = off + 1 + k by omega, this]
          rfl

theorem getD_replicate_zero (n j : Nat) :
    (List.replicate n (0 : Nat)).getD j 0 = 0 := by
  by_cases h : j < n
  · simp [List.getD_eq_getElem?_getD, List.getElem?_replicate, h]
  · have hlen : (List.replicate n (0 : Nat)).length ≤ j := by
      simpa using Nat.le_of_not_lt h
    simp [List.getD_eq_getElem?_getD, List.getElem?_eq_none hlen]

/-! ## Command encoder (prepare_cmd / prepare_endpoint_cmd) -/

/-- `prepare_cmd`: zero the 385-byte frame, write the constant header
`00 08`, copy the template at offset 2; return the frame and the number
of meaningful bytes, `CMD_HEADER_SIZE + command_len`. -/
def prepare_cmd (command : List Nat) : List Nat × Nat :=
  let buf := List.replicate OUT_BUFFER_SIZE 0
  let buf := buf.set 0 0x00
  let buf := buf.set 1 0x08
  let buf := writeBytes buf CMD_HEADER_SIZE command
  (buf, CMD_HEADER_SIZE + command.length)

/-- `prepare_endpoint_cmd`: `prepare_cmd`, then the single endpoint byte
at the returned offset; returns that offset plus one. -/
def prepare_endpoint_cmd (command : List Nat) (endpoint : Nat) : List Nat × Nat :=
  let r := prepare_cmd command
  (r.1.set r.2 endpoint, r.2 + 1)

/-! ## Transport exchange (send_usb) and status mapping (ccxt_get_errno) -/

/-- `ccxt_get_errno`: map the reply status byte (buffer[0]) to an errno. -/
def ccxt_get_errno (status : Nat) : Int :=
  if status = 0x00 then 0
  else if status = 0x01 then -EOPNOTSUPP
  else if status = 0x10 then -EINVAL
  else if status = 0x11 then -ENODATA
  else if status = 0x12 then -ENODATA
  else -EIO_errno

/-- Outcome of one raw transport round trip, as seen by `send_usb`:
the output report failed immediately, the bounded wait timed out, or a
reply of `recvSize` bytes was captured into the incoming buffer. -/
inductive UsbEvent where
  | sendError (e : Int)
  | timeout
  | reply (buf : List Nat) (recvSize : Nat)

/-- `send_usb`: propagate a send failure, map a timeout to -ETIMEDOUT,
reject replies whose recorded size is not `IN_BUFFER_SIZE` with -EPROTO,
and otherwise map the status byte via `ccxt_get_errno`. -/
def send_usb : UsbEvent → Int
  | .sendError e => e
  | .timeout => -ETIMEDOUT
  | .reply buf recvSize =>
      if recvSize ≠ IN_BUFFER_SIZE then -EPROTO
      else ccxt_get_errno (buf.getD 0 0)

/-! ## PWM rescaling (DIV_ROUND_CLOSEST with positive operands) -/

/-- `DIV_ROUND_CLOSEST(x, d)` for non-negative `x` and positive `d`:
`(x + d/2) / d` (the positive branch of the kernel macro). -/
def DIV_ROUND_CLOSEST (x d : Nat) : Nat := (x + d / 2) / d

/-- Host→device rescale used by `set_pwm`: `DIV_ROUND_CLOSEST(val * 100, 255)`. -/
def pwm_host_to_device (v : Nat) : Nat := DIV_ROUND_CLOSEST (v * 100) 255

/-- Device→host rescale used by `get_fan_pwm`: `DIV_ROUND_CLOSEST(pwm * 255, 100)`. -/
def pwm_device_to_host (p : Nat) : Nat := DIV_ROUND_CLOSEST (p * 255) 100

/-! ## Device-facade state

The fields of `struct ccxt_device` that the facade operations read and
write: the fan/temperature connectivity bitmaps, the per-channel cached
target, and the fan labels.  `devm_kzalloc` zero-initializes the
structure, hence `initState`. -/

structure CcxtState where
  fan_cnct : Nat → Bool
  temp_cnct : Nat → Bool
  target : Nat → Int
  fan_label : Nat → String

def initState : CcxtState :=
  { fan_cnct := fun _ => false
    temp_cnct := fun _ => false
    target := fun _ => 0
    fan_label := fun _ => "" }

/-! ## Endpoint transactions (read_data / write_data)

The four `send_usb` exchanges of a transaction (close, open, read-or-
write, trailing close) are parameterized by their outcomes `r1..r4`.
The model returns the C function's return value together with whether
the copy of the reply into `data_buffer` happened. -/

def read_data (r1 r2 r3 r4 : Int) : Int × Bool :=
  if r1 ≠ 0 then (r1, false)
  else if r2 ≠ 0 then (r2, false)
  else if r3 ≠ 0 then (r3, false)
  else (r4, true)

def write_data (r1 r2 r3 r4 : Int) : Int × Bool :=
  if r1 ≠ 0 then (r1, false)
  else if r2 ≠ 0 then (r2, false)
  else if r3 ≠ 0 then (r3, false)
  else (r4, true)

/-! ## Fan inventory decoding (get_fan_cnct) -/

/-- Label written by `scnprintf(ccxt->fan_label[channel], 11, "fan%d", channel + 1)`. -/
def fanLabel (channel : Nat) : String := "fan" ++ toString (channel + 1)

/-- One iteration of the `get_fan_cnct` loop: if the state byte at
`FAN_DATA_OFFSET + channel` equals `FAN_STATE_OK`, set the connectivity
bit, clear the cached target to `-ENODATA`, and write the label. -/
def get_fan_cnct_step (data : List Nat) (channel : Nat) (s : CcxtState) : CcxtState :=
  if data.getD (FAN_DATA_OFFSET + channel) 0 = FAN_STATE_OK then
    { s with
      fan_cnct := fun i => if i = channel then true else s.fan_cnct i
      target := fun i => if i = channel then -ENODATA else s.target i
      fan_label := fun i => if i = channel then fanLabel channel else s.fan_label i }
  else s

/-- The `get_fan_cnct` loop over channels `0 ..< bound`. -/
def get_fan_cnct_loop (data : List Nat) (bound : Nat) (s : CcxtState) : CcxtState :=
  (List.range bound).foldl (fun st ch => get_fan_cnct_step data ch st) s

/-- `get_fan_cnct`, decoding part: `num_fans` is the byte at
`FAN_CNT_INDEX`; iterate channels below `min(num_fans, NUM_FANS)`. -/
def get_fan_cnct (data : List Nat) (s : CcxtState) : CcxtState :=
  get_fan_cnct_loop data (min (data.getD FAN_CNT_INDEX 0) NUM_FANS) s

/-! ## Temperature inventory decoding (get_temp_cnct)

The loop body only reads the per-channel state byte; the marking step
(`set_bit` into `temp_cnct`) is commented out in the source, and the
function falls through to `return -1`.  `readResult` is the outcome of
the preceding `read_data` transaction. -/

def get_temp_cnct (readResult : Int) (data : List Nat) (s : CcxtState) : Int × CcxtState :=
  if readResult ≠ 0 then (readResult, s)
  else
    let s' := (List.range (min (data.getD TEMP_CNT_INDEX 0) NUM_TEMP_SENSORS)).foldl
      (fun st _channel => st) s
    (-1, s')

/-! ## Fan PWM read decoding (get_fan_pwm) -/

/-- `get_fan_pwm`, decoding part, over the captured data buffer:
validate the channel against `min(num_fans, NUM_FANS)`, check the
echoed channel id at `FAN_DATA_OFFSET + channel*4`, and rescale the
0–100 value byte at offset +2 to the 0–255 host scale. -/
def get_fan_pwm (data : List Nat) (channel : Nat) : Except Int Nat :=
  let num_fans := data.getD FAN_CNT_INDEX 0
  if min num_fans NUM_FANS ≤ channel then .error (-EINVAL)
  else
    let data_index := FAN_DATA_OFFSET + channel * 4
    let id := data.getD data_index 0
    if id ≠ channel then .error (-EIO_errno)
    else .ok (pwm_device_to_host (data.getD (data_index + 2) 0))

/-! ## PWM write path (set_pwm) -/

/-- Record of the single `write_data` call issued by `set_pwm`:
endpoint selector, data-type tag, and the 5-byte payload. -/
structure TxnRecord where
  endpoint : Nat
  data_type : List Nat
  payload : List Nat
deriving DecidableEq

structure SetPwmResult where
  ret : Int
  txn : Option TxnRecord
  state : CcxtState

/-- `set_pwm`: reject values outside 0–255 with `-EINVAL` before any
transaction; otherwise rescale to 0–100, send
`{1, channel, 0, scaled, 0}` with the set-speed tag through
`write_data` (whose outcome is `writeResult`), and on success clear the
cached target for the channel to `-ENODATA`. -/
def set_pwm (s : CcxtState) (channel : Nat) (val : Int) (writeResult : Int) : SetPwmResult :=
  if val < 0 ∨ val > 255 then ⟨-EINVAL, none, s⟩
  else
    let scaled := pwm_host_to_device val.toNat
    let payload := [1, channel, 0, scaled, 0]
    let s' :=
      if writeResult = 0 then
        { s with target := fun i => if i = channel then -ENODATA else s.target i }
      else s
    ⟨writeResult, some ⟨endpoint_fan_pwm, data_type_set_speed, payload⟩, s'⟩

/-! ## Fan target write path (set_target) and facade target read -/

/-- Kernel `clamp_val(val, lo, hi)`. -/
def clamp_val (val lo hi : Int) : Int := min (max val lo) hi

/-- `set_target`: clamp to 0–0xFFFF, record locally, and return the
stubbed device-write result `-1`. -/
def set_target (s : CcxtState) (channel : Nat) (val : Int) : Int × CcxtState :=
  let v := clamp_val val 0 0xFFFF
  (-1, { s with target := fun i => if i = channel then v else s.target i })

/-- `ccxt_read` for `hwmon_fan_target`: a negative cached target means
no data; otherwise return the cached value. -/
def ccxt_read_fan_target (s : CcxtState) (channel : Nat) : Except Int Int :=
  if s.target channel < 0 then .error (-ENODATA)
  else .ok (s.target channel)

/-! ## Visibility callback (ccxt_is_visible) -/

inductive SensorType where
  | temp | fan | pwm | voltage
deriving DecidableEq

/-- The hwmon attributes distinguished by the driver's switch
statements; `other` stands for any attribute hitting a `default`. -/
inductive HwmonAttr where
  | temp_input | temp_label
  | fan_input | fan_label | fan_target
  | pwm_input
  | in_input
  | other
deriving DecidableEq

/-- `ccxt_is_visible`: mode bits per (type, attr, channel); connectivity
bitmaps gate the temp/fan/pwm branches, and every fall-through returns 0. -/
def ccxt_is_visible (s : CcxtState) : SensorType → HwmonAttr → Nat → Nat
  | .temp, attr, channel =>
      if ¬ s.temp_cnct channel then 0
      else
        match attr with
        | .temp_input => 0o444
        | .temp_label => 0o444
        | _ => 0
  | .fan, attr, channel =>
      if ¬ s.fan_cnct channel then 0
      else
        match attr with
        | .fan_input => 0o444
        | .fan_label => 0o444
        | .fan_target => 0o644
        | _ => 0
  | .pwm, attr, channel =>
      if ¬ s.fan_cnct channel then 0
      else
        match attr with
        | .pwm_input => 0o644
        | _ => 0
  | .voltage, attr, _ =>
      match attr with
      | .in_input => 0o444
      | _ => 0

/-! ## Reachable facade states

`initState` is the zeroed state after probe allocation; the transitions
are the operations that mutate the modelled fields (`get_fan_cnct`,
`get_temp_cnct`, `set_pwm`, `set_target`); every other operation leaves
them unchanged. -/

inductive Reachable : CcxtState → Prop where
  | init : Reachable initState
  | fanCnct (data : List Nat) {s : CcxtState} :
      Reachable s → Reachable (get_fan_cnct data s)
  | tempCnct (readResult : Int) (data : List Nat) {s : CcxtState} :
      Reachable s → Reachable (get_temp_cnct readResult data s).2
  | setPwm (channel : Nat) (val writeResult : Int) {s : CcxtState} :
      Reachable s → Reachable (set_pwm s channel val writeResult).state
  | setTarget (channel : Nat) (val : Int) {s : CcxtState} :
      Reachable s → Reachable (set_target s channel val).2

/-! ## Theorems -/

theorem prepare_cmd_eq (cmd : List Nat) :
    prepare_cmd cmd =
      (writeBytes (((List.replicate 385 (0 : Nat)).set 0 0x00).set 1 0x08) 2 cmd,
       2 + cmd.length) := rfl

theorem prepare_endpoint_cmd_eq (cmd : List Nat) (e : Nat) :
    prepare_endpoint_cmd cmd e =
      ((prepare_cmd cmd).1.set (2 + cmd.length) e, 2 + cmd.length + 1) := rfl

theorem base_frame_len :
    (((List.replicate 385 (0 : Nat)).set 0 0x00).set 1 0x08).length = 385 := by
  rw [List.length_set, List.length_set, List.length_replicate]

theorem base_frame_getD0 :
    (((List.replicate 385 (0 : Nat)).set 0 0x00).set 1 0x08).getD 0 0 = 0x00 := by
  rw [getD_set_of_ne _ _ _ _ (by decide)]
  exact getD_set_self _ _ _ (by rw [List.length_replicate]; omega)

theorem base_frame_getD1 :
    (((List.replicate 385 (0 : Nat)).set 0 0x00).set 1 0x08).getD 1 0 = 0x08 :=
  getD_set_self _ _ _ (by rw [List.length_set, List.length_replicate]; omega)

theorem base_frame_getD_ge2 (j : Nat) (h : 2 ≤ j) :
    (((List.replicate 385 (0 : Nat)).set 0 0x00).set 1 0x08).getD j 0 = 0 := by
  rw [getD_set_of_ne _ _ _ _ (by omega), getD_set_of_ne _ _ _ _ (by omega)]
  exact getD_replicate_zero 385 j

/-- C1: the command encoder produces a 385-byte frame starting with
`00 08`, followed by the template, then (optionally) the endpoint byte,
with every remaining byte zero; the returned count is `2 + len`
(`prepare_cmd`) respectively `2 + len + 1` (`prepare_endpoint_cmd`). -/
theorem cmd_encoder_spec (cmd : List Nat) (endpoint : Nat)
    (h : cmd.length + 3 ≤ OUT_BUFFER_SIZE) :
    ((prepare_cmd cmd).1.length = 385 ∧
     (prepare_cmd cmd).1.getD 0 0 = 0x00 ∧
     (prepare_cmd cmd).1.getD 1 0 = 0x08 ∧
     (∀ i, i < cmd.length → (prepare_cmd cmd).1.getD (2 + i) 0 = cmd.getD i 0) ∧
     (∀ j, 2 + cmd.length ≤ j → (prepare_cmd cmd).1.getD j 0 = 0) ∧
     (prepare_cmd cmd).2 = 2 + cmd.length) ∧
    ((prepare_endpoint_cmd cmd endpoint).1.length = 385 ∧
     (prepare_endpoint_cmd cmd endpoint).1.getD 0 0 = 0x00 ∧
     (prepare_endpoint_cmd cmd endpoint).1.getD 1 0 = 0x08 ∧
     (∀ i, i < cmd.length →
        (prepare_endpoint_cmd cmd endpoint).1.getD (2 + i) 0 = cmd.getD i 0) ∧
     (prepare_endpoint_cmd cmd endpoint).1.getD (2 + cmd.length) 0 = endpoint ∧
     (∀ j, 2 + cmd.length + 1 ≤ j →
        (prepare_endpoint_cmd cmd endpoint).1.getD j 0 = 0) ∧
     (prepare_endpoint_cmd cmd endpoint).2 = 2 + cmd.length + 1) := by
  have h385 : cmd.length + 3 ≤ 385 := h
  have hframe_len : (prepare_cmd cmd).1.length = 385 := by
    rw [prepare_cmd_eq]
    exact (length_writeBytes cmd _ 2).trans base_frame_len
  have hg0 : (prepare_cmd cmd).1.getD 0 0 = 0x00 := by
    rw [prepare_cmd_eq]
    exact (getD_writeBytes_lt cmd _ 2 0 (by omega)).trans base_frame_getD0
  have hg1 : (prepare_cmd cmd).1.getD 1 0 = 0x08 := by
    rw [prepare_cmd_eq]
    exact (getD_writeBytes_lt cmd _ 2 1 (by omega)).trans base_frame_getD1
  have hgin : ∀ i, i < cmd.length → (prepare_cmd cmd).1.getD (2 + i) 0 = cmd.getD i 0 := by
    intro i hi
    rw [prepare_cmd_eq]
    exact getD_writeBytes_in cmd _ 2 i hi (by rw [base_frame_len]; omega)
  have hgge : ∀ j, 2 + cmd.length ≤ j → (prepare_cmd cmd).1.getD j 0 = 0 := by
    intro j hj
    rw [prepare_cmd_eq]
    exact (getD_writeBytes_ge cmd _ 2 j (by omega)).trans (base_frame_getD_ge2 j (by omega))
  refine ⟨⟨hframe_len, hg0, hg1, hgin, hgge, rfl⟩, ?_, ?_, ?_, ?_, ?_, ?_, rfl⟩
  · rw [prepare_endpoint_cmd_eq]
    exact (List.length_set _ _ _).trans hframe_len
  · rw [prepare_endpoint_cmd_eq]
    exact (getD_set_of_ne _ _ _ _ (by omega)).trans hg0
  · rw [prepare_endpoint_cmd_eq]
    exact (getD_set_of_ne _ _ _ _ (by omega)).trans hg1
  · intro i hi
    rw [prepare_endpoint_cmd_eq]
    exact (getD_set_of_ne _ _ _ _ (by omega)).trans (hgin i hi)
  · rw [prepare_endpoint_cmd_eq]
    exact getD_set_self _ _ _ (by rw [hframe_len]; omega)
  · intro j hj
    rw [prepare_endpoint_cmd_eq]
    exact (getD_set_of_ne _ _ _ _ (by omega)).trans (hgge j (by omega))

/-- C1 witness: the open-endpoint command with the fan-state endpoint. -/
theorem cmd_encoder_spec_witness :
    ([0x0d, 0x01].length + 3 ≤ OUT_BUFFER_SIZE) ∧
    (prepare_cmd [0x0d, 0x01]).1.length = 385 ∧
    (prepare_endpoint_cmd [0x0d, 0x01] 0x17).1.getD 4 0 = 0x17 ∧
    (prepare_endpoint_cmd [0x0d, 0x01] 0x17).2 = 5 := by
  have h := cmd_encoder_spec [0x0d, 0x01] 0x17 (by decide)
  exact ⟨by decide, h.1.1, h.2.2.2.2.2.1, h.2.2.2.2.2.2.2⟩

/-- C2: for a captured reply of recorded length 384, the exchange maps
the status byte as: 0x00→0, 0x01→-EOPNOTSUPP, 0x10→-EINVAL,
0x11/0x12→-ENODATA, anything else→-EIO_errno. -/
theorem send_usb_status_map (buf : List Nat) (n : Nat) (h : n = 384) :
    (buf.getD 0 0 = 0x00 → send_usb (.reply buf n) = 0) ∧
    (buf.getD 0 0 = 0x01 → send_usb (.reply buf n) = -EOPNOTSUPP) ∧
    (buf.getD 0 0 = 0x10 → send_usb (.reply buf n) = -EINVAL) ∧
    ((buf.getD 0 0 = 0x11 ∨ buf.getD 0 0 = 0x12) → send_usb (.reply buf n) = -ENODATA) ∧
    ((buf.getD 0 0 ≠ 0x00 ∧ buf.getD 0 0 ≠ 0x01 ∧ buf.getD 0 0 ≠ 0x10 ∧
      buf.getD 0 0 ≠ 0x11 ∧ buf.getD 0 0 ≠ 0x12) → send_usb (.reply buf n) = -EIO_errno) := by
  subst h
  have hs : send_usb (.reply buf 384) = ccxt_get_errno (buf.getD 0 0) := by
    show (if (384 : Nat) ≠ IN_BUFFER_SIZE then -EPROTO else ccxt_get_errno (buf.getD 0 0)) =
      ccxt_get_errno (buf.getD 0 0)
    rw [if_neg (by decide)]
  refine ⟨?_, ?_, ?_, ?_, ?_⟩ <;> intro hb <;> rw [hs]
  · rw [hb]; decide
  · rw [hb]; decide
  · rw [hb]; decide
  · rcases hb with hb | hb <;> rw [hb] <;> decide
  · unfold ccxt_get_errno
    rw [if_neg hb.1, if_neg hb.2.1, if_neg hb.2.2.1, if_neg hb.2.2.2.1,
      if_neg hb.2.2.2.2]

/-- C2 witness: reply with status byte 0x12 maps to -ENODATA. -/
theorem send_usb_status_map_witness :
    (384 = 384) ∧ send_usb (.reply [0x12] 384) = -ENODATA :=
  ⟨rfl, (send_usb_status_map [0x12] 384 rfl).2.2.2.1 (Or.inr rfl)⟩

/-- C3: a captured reply whose recorded length differs from 384 always
yields -EPROTO, regardless of the status byte. -/
theorem send_usb_short_reply (buf : List Nat) (n : Nat) (h : n ≠ IN_BUFFER_SIZE) :
    send_usb (.reply buf n) = -EPROTO := by
  show (if n ≠ IN_BUFFER_SIZE then -EPROTO else ccxt_get_errno (buf.getD 0 0)) = -EPROTO
  rw [if_pos h]

/-- C3 witness: a 100-byte reply with a success status byte still
yields -EPROTO. -/
theorem send_usb_short_reply_witness :
    ((100 : Nat) ≠ IN_BUFFER_SIZE) ∧ send_usb (.reply [0x00] 100) = -EPROTO :=
  ⟨by decide, send_usb_short_reply [0x00] 100 (by decide)⟩

set_option maxRecDepth 8192 in
/-- C4: for every 0 ≤ v ≤ 255, rescaling host→device
(`DIV_ROUND_CLOSEST(v*100, 255)`) and back device→host
(`DIV_ROUND_CLOSEST(·*255, 100)`) recovers a value within ±1 of v. -/
theorem pwm_roundtrip_within_one (v : Nat) (h : v ≤ 255) :
    ((pwm_device_to_host (pwm_host_to_device v) : Int) - v).natAbs ≤ 1 := by
  revert h
  revert v
  decide

/-- C4 witness: boundary value 128 round-trips exactly. -/
theorem pwm_roundtrip_within_one_witness :
    (128 ≤ 255) ∧ ((pwm_device_to_host (pwm_host_to_device 128) : Int) - 128).natAbs ≤ 1 :=
  ⟨by decide, pwm_roundtrip_within_one 128 (by decide)⟩

/-- C7 counterexample: a read transaction whose first three exchanges
succeed and whose trailing close-endpoint exchange fails does NOT
return success — the trailing close's failure is returned. -/
theorem read_data_trailing_close_counterexample :
    ¬ ((read_data 0 0 0 (-ETIMEDOUT)).1 = 0) := by
  decide

/-- C7 (amended): any failure before the copy is returned and the copy
does not happen; the trailing close-endpoint exchange's result is
returned to the caller, so a transaction whose only failing step is the
trailing close returns that failure rather than success. -/
theorem transaction_error_propagation (r1 r2 r3 r4 : Int) :
    (r1 ≠ 0 →
      read_data r1 r2 r3 r4 = (r1, false) ∧ write_data r1 r2 r3 r4 = (r1, false)) ∧
    (r1 = 0 → r2 ≠ 0 →
      read_data r1 r2 r3 r4 = (r2, false) ∧ write_data r1 r2 r3 r4 = (r2, false)) ∧
    (r1 = 0 → r2 = 0 → r3 ≠ 0 →
      read_data r1 r2 r3 r4 = (r3, false) ∧ write_data r1 r2 r3 r4 = (r3, false)) ∧
    (r1 = 0 → r2 = 0 → r3 = 0 →
      read_data r1 r2 r3 r4 = (r4, true) ∧ write_data r1 r2 r3 r4 = (r4, true)) := by
  refine ⟨?_, ?_, ?_, ?_⟩
  · intro h1
    have hr : read_data r1 r2 r3 r4 = (r1, false) := by
      unfold read_data; rw [if_pos h1]
    exact ⟨hr, hr⟩
  · intro h1 h2
    have hr : read_data r1 r2 r3 r4 = (r2, false) := by
      unfold read_data; rw [if_neg (not_not_intro h1), if_pos h2]
    exact ⟨hr, hr⟩
  · intro h1 h2 h3
    have hr : read_data r1 r2 r3 r4 = (r3, false) := by
      unfold read_data
      rw [if_neg (not_not_intro h1), if_neg (not_not_intro h2), if_pos h3]
    exact ⟨hr, hr⟩
  · intro h1 h2 h3
    have hr : read_data r1 r2 r3 r4 = (r4, true) := by
      unfold read_data
      rw [if_neg (not_not_intro h1), if_neg (not_not_intro h2), if_neg (not_not_intro h3)]
    exact ⟨hr, hr⟩

/-- C7 witness: the amended behaviour at the counterexample input. -/
theorem transaction_error_propagation_witness :
    read_data 0 0 0 (-ETIMEDOUT) = (-ETIMEDOUT, true) ∧
    write_data (-EPROTO) 0 0 0 = (-EPROTO, false) :=
  ⟨((transaction_error_propagation 0 0 0 (-ETIMEDOUT)).2.2.2 rfl rfl rfl).1,
   ((transaction_error_propagation (-EPROTO) 0 0 0).1 (by decide)).2⟩

theorem get_fan_cnct_loop_succ (data : List Nat) (n : Nat) (s : CcxtState) :
    get_fan_cnct_loop data (n + 1) s =
      get_fan_cnct_step data n (get_fan_cnct_loop data n s) := by
  unfold get_fan_cnct_loop
  rw [List.range_succ, List.foldl_append]
  rfl

theorem get_fan_cnct_step_ne (data : List Nat) (ch j : Nat) (s : CcxtState)
    (h : j ≠ ch) :
    (get_fan_cnct_step data ch s).fan_cnct j = s.fan_cnct j ∧
    (get_fan_cnct_step data ch s).target j = s.target j ∧
    (get_fan_cnct_step data ch s).fan_label j = s.fan_label j := by
  unfold get_fan_cnct_step
  split
  · simp [h]
  · exact ⟨rfl, rfl, rfl⟩

theorem get_fan_cnct_step_at (data : List Nat) (ch : Nat) (s : CcxtState)
    (h : data.getD (FAN_DATA_OFFSET + ch) 0 = FAN_STATE_OK) :
    (get_fan_cnct_step data ch s).fan_cnct ch = true ∧
    (get_fan_cnct_step data ch s).target ch = -ENODATA ∧
    (get_fan_cnct_step data ch s).fan_label ch = fanLabel ch := by
  unfold get_fan_cnct_step
  rw [if_pos h]
  simp

theorem get_fan_cnct_step_skip (data : List Nat) (ch : Nat) (s : CcxtState)
    (h : data.getD (FAN_DATA_OFFSET + ch) 0 ≠ FAN_STATE_OK) :
    get_fan_cnct_step data ch s = s := by
  unfold get_fan_cnct_step
  rw [if_neg h]

/-- Channels at or beyond the loop bound are untouched. -/
theorem get_fan_cnct_loop_untouched (data : List Nat) :
    ∀ (n : Nat) (s : CcxtState) (j : Nat), n ≤ j →
      (get_fan_cnct_loop data n s).fan_cnct j = s.fan_cnct j ∧
      (get_fan_cnct_loop data n s).target j = s.target j ∧
      (get_fan_cnct_loop data n s).fan_label j = s.fan_label j := by
  intro n
  induction n with
  | zero => intro s j _; exact ⟨rfl, rfl, rfl⟩
  | succ k ih =>
      intro s j hj
      rw [get_fan_cnct_loop_succ]
      have h1 := get_fan_cnct_step_ne data k j (get_fan_cnct_loop data k s) (by omega)
      have h2 := ih s j (by omega)
      exact ⟨h1.1.trans h2.1, h1.2.1.trans h2.2.1, h1.2.2.trans h2.2.2⟩

/-- A channel below the bound whose state byte is `FAN_STATE_OK` ends up
connected, with its target cleared and its label set. -/
theorem get_fan_cnct_loop_marked (data : List Nat) :
    ∀ (n : Nat) (s : CcxtState) (j : Nat), j < n →
      data.getD (FAN_DATA_OFFSET + j) 0 = FAN_STATE_OK →
      (get_fan_cnct_loop data n s).fan_cnct j = true ∧
      (get_fan_cnct_loop data n s).target j = -ENODATA ∧
      (get_fan_cnct_loop data n s).fan_label j = fanLabel j := by
  intro n
  induction n with
  | zero => intro s j hj _; exact absurd hj (Nat.not_lt_zero j)
  | succ k ih =>
      intro s j hj hd
      rw [get_fan_cnct_loop_succ]
      by_cases hjk : j = k
      · subst hjk
        exact get_fan_cnct_step_at data j (get_fan_cnct_loop data j s) hd
      · have h1 := get_fan_cnct_step_ne data k j (get_fan_cnct_loop data k s) hjk
        have h2 := ih s j (by omega) hd
        exact ⟨h1.1.trans h2.1, h1.2.1.trans h2.2.1, h1.2.2.trans h2.2.2⟩

/-- A channel below the bound whose state byte is not `FAN_STATE_OK` is
untouched. -/
theorem get_fan_cnct_loop_skipped (data : List Nat) :
    ∀ (n : Nat) (s : CcxtState) (j : Nat),
      data.getD (FAN_DATA_OFFSET + j) 0 ≠ FAN_STATE_OK →
      (get_fan_cnct_loop data n s).fan_cnct j = s.fan_cnct j ∧
      (get_fan_cnct_loop data n s).target j = s.target j ∧
      (get_fan_cnct_loop data n s).fan_label j = s.fan_label j := by
  intro n
  induction n with
  | zero => intro s j _; exact ⟨rfl, rfl, rfl⟩
  | succ k ih =>
      intro s j hd
      rw [get_fan_cnct_loop_succ]
      by_cases hjk : j = k
      · subst hjk
        rw [get_fan_cnct_step_skip data j (get_fan_cnct_loop data j s) hd]
        exact ih s j hd
      · have h1 := get_fan_cnct_step_ne data k j (get_fan_cnct_loop data k s) hjk
        have h2 := ih s j hd
        exact ⟨h1.1.trans h2.1, h1.2.1.trans h2.2.1, h1.2.2.trans h2.2.2⟩

/-- C5: fan-inventory decoding marks a channel connected only if its
state byte at offset `6 + index` is exactly 0x07; channels at or beyond
`min(reported count, 6)` are never touched; each marked channel gets
its target cleared to `-ENODATA` and its label set to
`"fan" ++ (1-based index)`. -/
theorem get_fan_cnct_spec (data : List Nat) (s : CcxtState) (ch : Nat) :
    (((get_fan_cnct data s).fan_cnct ch = true ∧ s.fan_cnct ch = false) →
      (ch < min (data.getD FAN_CNT_INDEX 0) NUM_FANS ∧
       data.getD (FAN_DATA_OFFSET + ch) 0 = FAN_STATE_OK)) ∧
    (min (data.getD FAN_CNT_INDEX 0) NUM_FANS ≤ ch →
      ((get_fan_cnct data s).fan_cnct ch = s.fan_cnct ch ∧
       (get_fan_cnct data s).target ch = s.target ch ∧
       (get_fan_cnct data s).fan_label ch = s.fan_label ch)) ∧
    ((ch < min (data.getD FAN_CNT_INDEX 0) NUM_FANS ∧
      data.getD (FAN_DATA_OFFSET + ch) 0 = FAN_STATE_OK) →
      ((get_fan_cnct data s).fan_cnct ch = true ∧
       (get_fan_cnct data s).target ch = -ENODATA ∧
       (get_fan_cnct data s).fan_label ch = "fan" ++ toString (ch + 1))) := by
  refine ⟨?_, ?_, ?_⟩
  · rintro ⟨hset, hinit⟩
    by_cases hlt : ch < min (data.getD FAN_CNT_INDEX 0) NUM_FANS
    · refine ⟨hlt, ?_⟩
      by_cases hd : data.getD (FAN_DATA_OFFSET + ch) 0 = FAN_STATE_OK
      · exact hd
      · have hskip :=
          (get_fan_cnct_loop_skipped data (min (data.getD FAN_CNT_INDEX 0) NUM_FANS) s ch hd).1
        rw [get_fan_cnct] at hset
        rw [hskip, hinit] at hset
        exact absurd hset (by decide)
    · have huntouched :=
        (get_fan_cnct_loop_untouched data (min (data.getD FAN_CNT_INDEX 0) NUM_FANS) s ch
          (by omega)).1
      rw [get_fan_cnct] at hset
      rw [huntouched, hinit] at hset
      exact absurd hset (by decide)
  · intro hge
    exact get_fan_cnct_loop_untouched data (min (data.getD FAN_CNT_INDEX 0) NUM_FANS) s ch hge
  · rintro ⟨hlt, hd⟩
    exact get_fan_cnct_loop_marked data (min (data.getD FAN_CNT_INDEX 0) NUM_FANS) s ch hlt hd

/-- C5 witness: the spec's scenario — count 3, states {0x07, 0x00, 0x07}
— marks channel 2 with label "fan3". -/
theorem get_fan_cnct_spec_witness :
    (2 < min ([0, 0, 0, 0, 0, 3, 7, 0, 7].getD FAN_CNT_INDEX 0) NUM_FANS ∧
     [0, 0, 0, 0, 0, 3, 7, 0, 7].getD (FAN_DATA_OFFSET + 2) 0 = FAN_STATE_OK) ∧
    (get_fan_cnct [0, 0, 0, 0, 0, 3, 7, 0, 7] initState).fan_cnct 2 = true ∧
    (get_fan_cnct [0, 0, 0, 0, 0, 3, 7, 0, 7] initState).fan_label 2 = "fan3" := by
  have h := (get_fan_cnct_spec [0, 0, 0, 0, 0, 3, 7, 0, 7] initState 2).2.2
    ⟨by decide, by decide⟩
  refine ⟨⟨by decide, by decide⟩, h.1, h.2.2.trans ?_⟩
  decide

/-- C6: for a valid channel, fan-PWM decoding returns -EIO_errno when the
echoed channel id at offset `6 + 4*channel` differs from the requested
channel, and otherwise the value byte at offset +2 rescaled with
`DIV_ROUND_CLOSEST(pwm*255, 100)`. -/
theorem get_fan_pwm_spec (data : List Nat) (channel : Nat)
    (h : channel < min (data.getD FAN_CNT_INDEX 0) NUM_FANS) :
    (data.getD (FAN_DATA_OFFSET + channel * 4) 0 ≠ channel →
      get_fan_pwm data channel = .error (-EIO_errno)) ∧
    (data.getD (FAN_DATA_OFFSET + channel * 4) 0 = channel →
      get_fan_pwm data channel =
        .ok (DIV_ROUND_CLOSEST (data.getD (FAN_DATA_OFFSET + channel * 4 + 2) 0 * 255) 100)) := by
  have hle : ¬ (min (data.getD FAN_CNT_INDEX 0) NUM_FANS ≤ channel) := not_le.mpr h
  constructor <;> intro hid <;> unfold get_fan_pwm <;> rw [if_neg hle]
  · rw [if_pos hid]
  · rw [if_neg (not_not_intro hid)]
    rfl

/-- C6 witness: channel 0, matching echoed id, device value 50 decodes
to host value 128. -/
theorem get_fan_pwm_spec_witness :
    (0 < min ([0, 0, 0, 0, 0, 1, 0, 0, 50].getD FAN_CNT_INDEX 0) NUM_FANS) ∧
    get_fan_pwm [0, 0, 0, 0, 0, 1, 0, 0, 50] 0 = .ok 128 :=
  ⟨by decide, (get_fan_pwm_spec [0, 0, 0, 0, 0, 1, 0, 0, 50] 0 (by decide)).2 rfl⟩

/-- C8: `set_pwm` rejects values outside 0–255 with -EINVAL and no
transaction; in range it sends the payload `{1, channel, 0, scaled, 0}`
with the set-speed tag through the fan-pwm endpoint, returns the
transaction's result, and clears the cached target for the channel to
`-ENODATA` exactly when the transaction succeeded. -/
theorem set_pwm_spec (s : CcxtState) (channel : Nat) (val writeResult : Int) :
    ((val < 0 ∨ val > 255) →
      set_pwm s channel val writeResult = ⟨-EINVAL, none, s⟩) ∧
    ((0 ≤ val ∧ val ≤ 255) →
      ((set_pwm s channel val writeResult).ret = writeResult ∧
       (set_pwm s channel val writeResult).txn =
         some ⟨endpoint_fan_pwm, data_type_set_speed,
               [1, channel, 0, pwm_host_to_device val.toNat, 0]⟩ ∧
       (writeResult = 0 →
         ((set_pwm s channel val writeResult).state.target channel = -ENODATA ∧
          ∀ i, i ≠ channel →
            (set_pwm s channel val writeResult).state.target i = s.target i)) ∧
       (writeResult ≠ 0 → (set_pwm s channel val writeResult).state = s))) := by
  constructor
  · intro h
    unfold set_pwm
    rw [if_pos h]
  · intro h
    have hc : ¬ (val < 0 ∨ val > 255) := by omega
    unfold set_pwm
    rw [if_neg hc]
    refine ⟨rfl, rfl, ?_, ?_⟩
    · intro hw
      rw [if_pos hw]
      exact ⟨by simp, fun i hi => by simp [hi]⟩
    · intro hw
      rw [if_neg hw]

/-- C8 witness: PWM write of 128 encodes scaled value 50 and, on a
successful transaction, clears the cached target. -/
theorem set_pwm_spec_witness :
    ((0 : Int) ≤ 128 ∧ (128 : Int) ≤ 255) ∧
    (set_pwm initState 0 128 0).ret = 0 ∧
    (set_pwm initState 0 128 0).txn =
      some ⟨endpoint_fan_pwm, data_type_set_speed, [1, 0, 0, 50, 0]⟩ ∧
    (set_pwm initState 0 128 0).state.target 0 = -ENODATA := by
  have h := (set_pwm_spec initState 0 128 0).2 ⟨by decide, by decide⟩
  exact ⟨⟨by decide, by decide⟩, h.1, h.2.1, (h.2.2.1 rfl).1⟩

/-- C9: `set_target` clamps the requested value to 0–0xFFFF, records it
in the per-channel cached target, and always returns the stubbed
failure -1; a subsequent facade target read returns the clamped value
even though the write reported failure. -/
theorem set_target_spec (s : CcxtState) (channel : Nat) (val : Int) :
    (set_target s channel val).1 = -1 ∧
    (set_target s channel val).1 ≠ 0 ∧
    (set_target s channel val).2.target channel = clamp_val val 0 0xFFFF ∧
    ccxt_read_fan_target (set_target s channel val).2 channel =
      .ok (clamp_val val 0 0xFFFF) := by
  have ht : (set_target s channel val).2.target channel = clamp_val val 0 0xFFFF := by
    unfold set_target
    simp
  have h0 : (0 : Int) ≤ clamp_val val 0 0xFFFF :=
    le_min (le_max_right val 0) (by norm_num)
  refine ⟨rfl, by show (-1 : Int) ≠ 0; norm_num, ht, ?_⟩
  unfold ccxt_read_fan_target
  rw [ht, if_neg (not_lt.mpr h0)]

/-! Helper lemmas for the reachability invariant: no modelled operation
writes the temperature connectivity bitmap. -/

theorem get_fan_cnct_step_temp (data : List Nat) (ch : Nat) (s : CcxtState) :
    (get_fan_cnct_step data ch s).temp_cnct = s.temp_cnct := by
  unfold get_fan_cnct_step
  split <;> rfl

theorem get_fan_cnct_loop_temp (data : List Nat) :
    ∀ (n : Nat) (s : CcxtState),
      (get_fan_cnct_loop data n s).temp_cnct = s.temp_cnct := by
  intro n
  induction n with
  | zero => intro s; rfl
  | succ k ih =>
      intro s
      rw [get_fan_cnct_loop_succ, get_fan_cnct_step_temp, ih]

theorem foldl_const_state (l : List Nat) (s : CcxtState) :
    l.foldl (fun st _channel => st) s = s := by
  induction l with
  | nil => rfl
  | cons a t ih => exact ih

theorem get_temp_cnct_snd (readResult : Int) (data : List Nat) (s : CcxtState) :
    (get_temp_cnct readResult data s).2 = s := by
  unfold get_temp_cnct
  split
  · rfl
  · exact foldl_const_state _ s

theorem get_temp_cnct_fails (readResult : Int) (data : List Nat) (s : CcxtState) :
    (get_temp_cnct readResult data s).1 ≠ 0 := by
  unfold get_temp_cnct
  split
  · assumption
  · norm_num

theorem set_pwm_state_temp (s : CcxtState) (channel : Nat) (val writeResult : Int) :
    (set_pwm s channel val writeResult).state.temp_cnct = s.temp_cnct := by
  unfold set_pwm
  split
  · rfl
  · split <;> rfl

theorem set_target_state_temp (s : CcxtState) (channel : Nat) (val : Int) :
    (set_target s channel val).2.temp_cnct = s.temp_cnct := rfl

theorem reachable_temp_cnct_false {s : CcxtState} (h : Reachable s) :
    ∀ ch, s.temp_cnct ch = false := by
  induction h with
  | init => intro ch; rfl
  | fanCnct data h ih =>
      intro ch
      rw [get_fan_cnct, get_fan_cnct_loop_temp]
      exact ih ch
  | tempCnct readResult data h ih =>
      intro ch
      rw [get_temp_cnct_snd]
      exact ih ch
  | setPwm channel val writeResult h ih =>
      intro ch
      rw [set_pwm_state_temp]
      exact ih ch
  | setTarget channel val h ih =>
      intro ch
      rw [set_target_state_temp]
      exact ih ch

/-- C10: in every reachable facade state the temperature connectivity
bitmap stays empty (the inventory decoder never marks a sensor and
always reports failure), so the visibility callback reports every
temperature entry as hidden (mode 0). -/
theorem temp_entries_hidden {s : CcxtState} (h : Reachable s) :
    (∀ ch, s.temp_cnct ch = false) ∧
    (∀ (readResult : Int) (data : List Nat), (get_temp_cnct readResult data s).1 ≠ 0) ∧
    (∀ (attr : HwmonAttr) (channel : Nat), ccxt_is_visible s .temp attr channel = 0) := by
  have ht := reachable_temp_cnct_false h
  refine ⟨ht, fun readResult data => get_temp_cnct_fails readResult data s, ?_⟩
  intro attr channel
  have ha : ccxt_is_visible s .temp attr channel =
      if ¬ s.temp_cnct channel then 0 else
        match attr with
        | .temp_input => 0o444
        | .temp_label => 0o444
        | _ => 0 := rfl
  have hc : ¬ s.temp_cnct channel = true := by
    rw [ht channel]
    exact Bool.false_ne_true
  rw [ha, if_pos hc]

/-- C10 witness: in the initial state, temperature input is hidden. -/
theorem temp_entries_hidden_witness :
    ccxt_is_visible initState .temp .temp_input 0 = 0 :=
  (temp_entries_hidden Reachable.init).2.2 .temp_input 0

end Ccxt
